import Mathlib

/-!
Verification of the MixingCompass HSP core
(`app/services/theory_based_loss.py`, `app/services/hsp_calculator.py`).

Numeric model: Python floats are idealized as elements of a linear ordered
field. Purely algebraic code is embedded polymorphically over
`LinearOrderedField α`, so every theorem covers the real-number reading while
concrete witnesses can be evaluated at `ℚ`; code involving `sqrt`/`log` is
embedded over `ℝ`.

Error model: Python `raise` is an `Except.error`; the entry point's blanket
`except Exception: return None` is `Except.toOption`. The float value
`float('inf')` used for `Ra_max` is `Option.none`. The division-by-zero that
Python raises when `Ra_optimal = 0` is modelled by the explicit guard in
`radiusOnlyStage`.
-/

namespace MixingCompass

/-- An HSP point (δD, δP, δH), `MPa^0.5` units. -/
structure HSPPoint (α : Type) where
  d : α
  p : α
  h : α
deriving DecidableEq

/-- Squared value of the distance computed by `hansen_distance` in
`app/services/theory_based_loss.py` (`np.sum((X - center)**2, axis=1)` for one
row): the plain, unweighted Euclidean square. -/
def lossDistSq {α : Type} [LinearOrderedField α] (x c : HSPPoint α) : α :=
  (x.d - c.d) ^ 2 + (x.p - c.p) ^ 2 + (x.h - c.h) ^ 2

/-- Squared value of the distance computed by
`HSPCalculator._calculate_hansen_distance` in `app/services/hsp_calculator.py`:
`4*delta_D**2 + delta_P**2 + delta_H**2`. -/
def hansenDistSq {α : Type} [LinearOrderedField α] (x c : HSPPoint α) : α :=
  4 * (x.d - c.d) ^ 2 + (x.p - c.p) ^ 2 + (x.h - c.h) ^ 2

noncomputable section RealCode

/-- `hansen_distance(X, center)` from `theory_based_loss.py`, one row:
`np.sqrt(np.sum((X - center)**2, axis=1))`. -/
def hansen_distance (x c : HSPPoint ℝ) : ℝ :=
  Real.sqrt (lossDistSq x c)

/-- `HSPCalculator._calculate_hansen_distance(point, center)` from
`hsp_calculator.py`: `math.sqrt(4 * delta_D**2 + delta_P**2 + delta_H**2)`. -/
def calculate_hansen_distance (x c : HSPPoint ℝ) : ℝ :=
  Real.sqrt (hansenDistSq x c)

/-- The 4-vector `HSP = (D, P, H, R)` a loss function receives from the
optimizer. -/
structure SphereParams where
  D : ℝ
  P : ℝ
  H : ℝ
  R : ℝ

/-- The `center = np.array([D, P, H])` taken inside each loss `__call__`. -/
def SphereParams.center (hsp : SphereParams) : HSPPoint ℝ :=
  ⟨hsp.D, hsp.P, hsp.H⟩

/-- `red = dist / R` computed inside each loss `__call__` for one sample
(`dist = hansen_distance(X, center)`). -/
def redOf (hsp : SphereParams) (x : HSPPoint ℝ) : ℝ :=
  hansen_distance x hsp.center / hsp.R

/-- Loop body of `BoundaryDistanceLoss.__call__` for one sample:
`max(0, red-1)` when `y == 1.0`, `max(0, 1-red)` when `y == 0.0`, else
`abs(red-1)`. -/
def boundaryPerSample (red y : ℝ) : ℝ :=
  if y = 1 then max 0 (red - 1)
  else if y = 0 then max 0 (1 - red)
  else |red - 1|

/-- The optional `size_factor * R ** 2` term appended by every loss when
`size_factor is not None and size_factor > 0`. -/
def sizePenalty (size_factor : Option ℝ) (R base : ℝ) : ℝ :=
  match size_factor with
  | some sf => if 0 < sf then base + sf * R ^ 2 else base
  | none => base

/-- `BoundaryDistanceLoss.__call__(HSP, X, y)` from `theory_based_loss.py`:
the mean of the per-sample boundary distances, plus the optional size
penalty. -/
def BoundaryDistanceLoss (size_factor : Option ℝ) (hsp : SphereParams)
    (X : List (HSPPoint ℝ)) (y : List ℝ) : ℝ :=
  let perSample := List.zipWith (fun x yi => boundaryPerSample (redOf hsp x) yi) X y
  sizePenalty size_factor hsp.R (perSample.sum / perSample.length)

/-- `p_soluble = 1.0 / (1.0 + red**2)` from `CrossEntropyStyleLoss.__call__`. -/
def pSoluble (red : ℝ) : ℝ :=
  1 / (1 + red ^ 2)

/-- `np.clip(x, lo, hi)` for scalars (`lo ≤ hi`). -/
def npClip (lo hi x : ℝ) : ℝ :=
  max lo (min x hi)

/-- The epsilon `1e-7` used to clip probabilities in
`CrossEntropyStyleLoss.__call__`. -/
def ceEpsilon : ℝ :=
  1 / 10 ^ 7

/-- One sample of `CrossEntropyStyleLoss.__call__`: clip
`p_soluble` to `[epsilon, 1-epsilon]`, then
`-(y*log(p) + (1-y)*log(1-p))`. -/
def cePerSample (y red : ℝ) : ℝ :=
  let ps := npClip ceEpsilon (1 - ceEpsilon) (pSoluble red);
  -(y * Real.log ps + (1 - y) * Real.log (1 - ps))

/-- `CrossEntropyStyleLoss.__call__(HSP, X, y)` from `theory_based_loss.py`:
mean of the per-sample cross-entropy terms, plus the optional size penalty. -/
def CrossEntropyStyleLoss (size_factor : Option ℝ) (hsp : SphereParams)
    (X : List (HSPPoint ℝ)) (y : List ℝ) : ℝ :=
  let perSample := List.zipWith (fun x yi => cePerSample yi (redOf hsp x)) X y
  sizePenalty size_factor hsp.R (perSample.sum / perSample.length)

end RealCode

/-- The loss classes registered in the `LOSS_FUNCTIONS` dict of
`theory_based_loss.py`. -/
inductive LossKind
  | boundaryDistance
  | proportionalBoundary
  | logBarrier
  | normalizedDistance
  | crossEntropy
deriving DecidableEq

/-- The `LOSS_FUNCTIONS` name-to-class dict of `theory_based_loss.py`. -/
def LOSS_FUNCTIONS : List (String × LossKind) :=
  [("boundary_distance", .boundaryDistance),
   ("proportional_boundary", .proportionalBoundary),
   ("log_barrier", .logBarrier),
   ("normalized_distance", .normalizedDistance),
   ("cross_entropy", .crossEntropy)]

/-- `get_loss_function(name, size_factor)` from `theory_based_loss.py`:
a dict lookup, raising `ValueError("Unknown loss function: ...")` when `name`
is not a key of `LOSS_FUNCTIONS`. -/
def get_loss_function (name : String) (size_factor : Option ℚ) :
    Except String (LossKind × Option ℚ) :=
  match List.lookup name LOSS_FUNCTIONS with
  | some k => .ok (k, size_factor)
  | none => .error ("Unknown loss function: " ++ name)

/-- One entry of the `solvents` list built in step 2 of
`HSPCalculator._calculate_hsp_optimize_radius_only`: name, coordinates,
solubility score, and the precomputed Hansen distance to the fixed center. -/
structure SolventRecord (α : Type) where
  name : String
  point : HSPPoint α
  solubility : α
  distance : α
deriving DecidableEq

/-- One entry of the `classification_details` list built in step 5 of
`_calculate_hsp_optimize_radius_only`. -/
structure ClassificationDetail (α : Type) where
  name : String
  solubility : α
  distance : α
  red : α
  is_inside : Bool
  is_correct : Bool
deriving DecidableEq

/-- The fields of the `HSPCalculationResult` / `calculation_details` produced
by `_calculate_hsp_optimize_radius_only` that the radius-only logic computes:
`Ra_optimal`, the FIT accuracy, the `Ra_min`/`Ra_max` constraints
(`Ra_max = none` models `float('inf')`), the feasibility flag, and the
per-sample classification details. -/
structure RadiusOnlyResult (α : Type) where
  radius : α
  accuracy : α
  Ra_min : α
  Ra_max : Option α
  feasible : Bool
  details : List (ClassificationDetail α)
deriving DecidableEq

/-- Python `max(list)` over a nonempty list (the source only applies it under
a nonemptiness guard; the `[]` value here is junk). -/
def pyMax {α : Type} [LinearOrderedField α] : List α → α
  | [] => 0
  | x :: xs => xs.foldl max x

/-- Python `min(list)` over a nonempty list (the source only applies it under
a nonemptiness guard; the `[]` value here is junk). -/
def pyMin {α : Type} [LinearOrderedField α] : List α → α
  | [] => 0
  | x :: xs => xs.foldl min x

/-- `good_solvents = [s for s in solvents if s['solubility'] == 1.0]`. -/
def goodSolvents {α : Type} [LinearOrderedField α] (solvents : List (SolventRecord α)) :
    List (SolventRecord α) :=
  solvents.filter (fun s => decide (s.solubility = 1))

/-- `poor_solvents = [s for s in solvents if s['solubility'] < 1.0]`. -/
def poorSolvents {α : Type} [LinearOrderedField α] (solvents : List (SolventRecord α)) :
    List (SolventRecord α) :=
  solvents.filter (fun s => decide (s.solubility < 1))

/-- Step 3 of `_calculate_hsp_optimize_radius_only`:
`Ra_min = max(good_distances)` when good solvents exist, else the default
`0.1`. -/
def raMin {α : Type} [LinearOrderedField α] (solvents : List (SolventRecord α)) : α :=
  match goodSolvents solvents with
  | [] => 1 / 10
  | g => pyMax (g.map (·.distance))

/-- Step 3 of `_calculate_hsp_optimize_radius_only`:
`Ra_max = min(poor_distances)` when poor solvents exist, else `float('inf')`
(modelled as `none`). -/
def raMax {α : Type} [LinearOrderedField α] (solvents : List (SolventRecord α)) : Option α :=
  match poorSolvents solvents with
  | [] => none
  | q => some (pyMin (q.map (·.distance)))

/-- The diagnostic `feasible = Ra_min <= Ra_max` of step 4 (`Ra_min <= inf`
is `True` in Python). -/
def feasibleFlag {α : Type} [LinearOrderedField α] (solvents : List (SolventRecord α)) : Bool :=
  match raMax solvents with
  | none => true
  | some m => decide (raMin solvents ≤ m)

/-- The step-5 loop body of `_calculate_hsp_optimize_radius_only` for one
solvent: `RED = distance / Ra_optimal`, `is_inside = RED < 1.0`, and
`is_correct = is_inside` when `solubility == 1.0` else `not is_inside`. -/
def classifyOne {α : Type} [LinearOrderedField α] (Ra : α) (s : SolventRecord α) :
    ClassificationDetail α :=
  let red := s.distance / Ra
  let inside := decide (red < 1)
  ⟨s.name, s.solubility, s.distance, red,
   inside, if s.solubility = 1 then inside else !inside⟩

/-- Steps 3-5 of `_calculate_hsp_optimize_radius_only`, as a function of the
`solvents` records of step 2: compute `Ra_min`/`Ra_max`, choose
`Ra_optimal = Ra_min` unconditionally, record the feasibility diagnostic, and
run the classification loop. When `Ra_optimal = 0` and the loop runs at least
once, Python raises `ZeroDivisionError`, caught by the blanket handler that
returns `None`. -/
def radiusOnlyStage {α : Type} [LinearOrderedField α] (solvents : List (SolventRecord α)) :
    Option (RadiusOnlyResult α) :=
  let RaOptimal := raMin solvents
  if solvents ≠ [] ∧ RaOptimal = 0 then none
  else
    let details := solvents.map (classifyOne RaOptimal)
    let correct := (details.filter (·.is_correct)).length
    let total := solvents.length
    some ⟨RaOptimal, if 0 < total then (correct : α) / total else 0,
          raMin solvents, raMax solvents, feasibleFlag solvents, details⟩

/-- Step 2 of `_calculate_hsp_optimize_radius_only`: build the `solvents`
records from the converted rows `(Chemical, (D,P,H), Data)`, computing each
distance to the fixed center with `_calculate_hansen_distance`. -/
noncomputable def buildSolventRecords (center : HSPPoint ℝ)
    (rows : List (String × HSPPoint ℝ × ℝ)) : List (SolventRecord ℝ) :=
  rows.map (fun r => ⟨r.1, r.2.1, r.2.2, calculate_hansen_distance r.2.1 center⟩)

/-- The solubility input accepted by
`HSPCalculator._convert_solubility_to_float`: a raw number or a status
string. -/
inductive SolubilityInput (α : Type)
  | num (x : α)
  | str (s : String)

/-- `_convert_solubility_to_float` from `hsp_calculator.py`: numbers are kept
when inside `[0, 1]`; the strings `soluble`/`partial`/`insoluble` map to
`1.0`/`0.5`/`0.0`; anything else yields `None`. -/
def convert_solubility_to_float {α : Type} [LinearOrderedField α] :
    SolubilityInput α → Option α
  | .num x => if 0 ≤ x ∧ x ≤ 1 then some x else none
  | .str s =>
      if s = "soluble" then some 1
      else if s = "partial" then some (1 / 2)
      else if s = "insoluble" then some 0
      else none

/-- One solvent test as seen by `_convert_tests_to_hsp_format`. The
coordinates of `_extract_hsp_values` (manual entry, stored data, or the
external name-lookup service, which is an excluded collaborator) enter as an
already-resolved `Option (HSPPoint α)`. -/
structure SolventTestInput (α : Type) where
  name : String
  hsp_values : Option (HSPPoint α)
  solubility : SolubilityInput α

/-- `_convert_tests_to_hsp_format` from `hsp_calculator.py`: keep exactly the
tests with complete HSP coordinates and a convertible solubility, as rows
`(Chemical, (D,P,H), Data)`. -/
def convert_tests_to_hsp_format {α : Type} [LinearOrderedField α]
    (tests : List (SolventTestInput α)) : List (String × HSPPoint α × α) :=
  tests.filterMap (fun t =>
    match t.hsp_values, convert_solubility_to_float t.solubility with
    | some pt, some v => some (t.name, pt, v)
    | _, _ => none)

/-- The body of `calculate_hsp_from_tests` (standard path) up to the
optimizer call: convert the tests, raise
`ValueError("At least 2 solvent tests are required ...")` when fewer than 2
valid rows survive, and only then run the external global optimizer
(HSPEstimator differential evolution), taken here as the argument
`optimizer`, on the surviving rows. -/
def calculate_hsp_from_tests_core {α β : Type} [LinearOrderedField α]
    (optimizer : List (String × HSPPoint α × α) → β)
    (tests : List (SolventTestInput α)) : Except String β :=
  let rows := convert_tests_to_hsp_format tests
  if rows.length < 2 then
    .error "At least 2 solvent tests are required for HSP calculation"
  else
    .ok (optimizer rows)

/-- `calculate_hsp_from_tests` as the caller sees it: the whole body runs
inside `try: ... except Exception: return None`, so the raised error surfaces
as `none`. -/
def calculate_hsp_from_tests {α β : Type} [LinearOrderedField α]
    (optimizer : List (String × HSPPoint α × α) → β)
    (tests : List (SolventTestInput α)) : Option β :=
  (calculate_hsp_from_tests_core optimizer tests).toOption

end MixingCompass

section Helpers

namespace MixingCompass

theorem init_le_foldl_max {α : Type} [LinearOrderedField α] :
    ∀ (l : List α) (a : α), a ≤ l.foldl max a := by
  intro l
  induction l with
  | nil => intro a; simp
  | cons b t ih =>
      intro a
      calc a ≤ max a b := le_max_left a b
        _ ≤ (b :: t).foldl max a := by simpa using ih (max a b)

theorem mem_le_foldl_max {α : Type} [LinearOrderedField α] :
    ∀ (l : List α) (a x : α), x ∈ l → x ≤ l.foldl max a := by
  intro l
  induction l with
  | nil => intro a x hx; cases hx
  | cons b t ih =>
      intro a x hx
      rcases List.mem_cons.mp hx with h | h
      · subst h
        calc x ≤ max a x := le_max_right a x
          _ ≤ t.foldl max (max a x) := init_le_foldl_max t (max a x)
          _ = (x :: t).foldl max a := by simp
      · simpa using ih (max a b) x h

theorem le_pyMax {α : Type} [LinearOrderedField α] {l : List α} {x : α}
    (hx : x ∈ l) : x ≤ pyMax l := by
  cases l with
  | nil => cases hx
  | cons a t =>
      rcases List.mem_cons.mp hx with h | h
      · subst h; exact init_le_foldl_max t x
      · exact mem_le_foldl_max t a x h

theorem sum_eq_zero_iff_of_nonneg {α : Type} [LinearOrderedField α] :
    ∀ {l : List α}, (∀ x ∈ l, 0 ≤ x) → (l.sum = 0 ↔ ∀ x ∈ l, x = 0) := by
  intro l
  induction l with
  | nil => intro _; simp
  | cons a t ih =>
      intro h
      have ha : 0 ≤ a := h a (List.mem_cons_self a t)
      have ht : ∀ x ∈ t, 0 ≤ x := fun x hx => h x (List.mem_cons_of_mem a hx)
      have hsum : 0 ≤ t.sum := List.sum_nonneg ht
      constructor
      · intro h0
        rw [List.sum_cons] at h0
        have ha0 : a = 0 := by nlinarith
        have hs0 : t.sum = 0 := by nlinarith
        intro x hx
        rcases List.mem_cons.mp hx with rfl | hx
        · exact ha0
        · exact (ih ht).mp hs0 x hx
      · intro h0
        simp only [List.sum_cons]
        rw [h0 a (List.mem_cons_self a t), (ih ht).mpr fun x hx => h0 x (List.mem_cons_of_mem a hx)]
        ring

end MixingCompass
end Helpers

namespace MixingCompass

theorem sqrt_four : Real.sqrt 4 = 2 := by
  rw [show (4 : ℝ) = 2 ^ 2 by norm_num, Real.sqrt_sq (by norm_num : (0:ℝ) ≤ 2)]

/-- C1: the claim asserts every core distance equals
`sqrt(4*(aD-bD)^2 + (aP-bP)^2 + (aH-bH)^2)`. The distance used by every loss
function (`hansen_distance` in `theory_based_loss.py`) is the unweighted
Euclidean distance instead: at a = (1,0,0), b = (0,0,0) it returns 1, while
the weighted formula — the one `_calculate_hansen_distance` implements and
documents — gives 2. -/
theorem C1_loss_path_distance_unweighted :
    hansen_distance ⟨1, 0, 0⟩ ⟨0, 0, 0⟩ = 1 ∧
    calculate_hansen_distance ⟨1, 0, 0⟩ ⟨0, 0, 0⟩ = 2 ∧
    hansen_distance ⟨1, 0, 0⟩ ⟨0, 0, 0⟩ ≠
      Real.sqrt (4 * ((1 : ℝ) - 0) ^ 2 + ((0 : ℝ) - 0) ^ 2 + ((0 : ℝ) - 0) ^ 2) := by
  have h1 : hansen_distance ⟨1, 0, 0⟩ ⟨0, 0, 0⟩ = 1 := by
    simp only [hansen_distance, lossDistSq]
    norm_num
  have h2 : calculate_hansen_distance ⟨1, 0, 0⟩ ⟨0, 0, 0⟩ = 2 := by
    simp only [calculate_hansen_distance, hansenDistSq]
    norm_num [sqrt_four]
  refine ⟨h1, h2, ?_⟩
  rw [h1, show (4 * ((1 : ℝ) - 0) ^ 2 + ((0 : ℝ) - 0) ^ 2 + ((0 : ℝ) - 0) ^ 2) = 4 by norm_num,
    sqrt_four]
  norm_num

/-- C4 counterexample: the name `continuous_l2`, which the claim lists among
the accepted names, is rejected by `get_loss_function`. -/
theorem C4_continuous_l2_rejected :
    get_loss_function "continuous_l2" none =
      Except.error "Unknown loss function: continuous_l2" := by
  simp [get_loss_function, LOSS_FUNCTIONS, List.lookup]

/-- C4 amended: loss-function dispatch by name succeeds for exactly the five
names registered in `LOSS_FUNCTIONS` — boundary_distance,
proportional_boundary, log_barrier, normalized_distance, cross_entropy — and
every other name (including continuous_l2) raises the unknown-loss error. -/
theorem C4_dispatch_names (name : String) (sf : Option ℚ) :
    (∃ v, get_loss_function name sf = Except.ok v) ↔
      name ∈ ["boundary_distance", "proportional_boundary", "log_barrier",
              "normalized_distance", "cross_entropy"] := by
  constructor
  · intro hok
    by_contra hmem
    simp only [List.mem_cons, List.not_mem_nil, or_false] at hmem
    push_neg at hmem
    obtain ⟨h1, h2, h3, h4, h5⟩ := hmem
    have e1 : (name == "boundary_distance") = false := beq_eq_false_iff_ne.mpr h1
    have e2 : (name == "proportional_boundary") = false := beq_eq_false_iff_ne.mpr h2
    have e3 : (name == "log_barrier") = false := beq_eq_false_iff_ne.mpr h3
    have e4 : (name == "normalized_distance") = false := beq_eq_false_iff_ne.mpr h4
    have e5 : (name == "cross_entropy") = false := beq_eq_false_iff_ne.mpr h5
    rcases hok with ⟨v, hv⟩
    simp [get_loss_function, LOSS_FUNCTIONS, List.lookup, e1, e2, e3, e4, e5] at hv
  · intro hmem
    rcases List.mem_cons.mp hmem with rfl | hmem
    · exact ⟨(.boundaryDistance, sf), by simp [get_loss_function, LOSS_FUNCTIONS, List.lookup]⟩
    rcases List.mem_cons.mp hmem with rfl | hmem
    · exact ⟨(.proportionalBoundary, sf), by simp [get_loss_function, LOSS_FUNCTIONS, List.lookup]⟩
    rcases List.mem_cons.mp hmem with rfl | hmem
    · exact ⟨(.logBarrier, sf), by simp [get_loss_function, LOSS_FUNCTIONS, List.lookup]⟩
    rcases List.mem_cons.mp hmem with rfl | hmem
    · exact ⟨(.normalizedDistance, sf), by simp [get_loss_function, LOSS_FUNCTIONS, List.lookup]⟩
    rcases List.mem_cons.mp hmem with rfl | hmem
    · exact ⟨(.crossEntropy, sf), by simp [get_loss_function, LOSS_FUNCTIONS, List.lookup]⟩
    · cases hmem

/-- C8: whenever fewer than 2 observations survive the coordinate/score
filtering of `_convert_tests_to_hsp_format`, the entry point raises the
insufficient-data error before the external optimizer is consulted (the
result is the same for every optimizer), and the caller-visible value is
`None`, not a fitted result. -/
theorem C8_insufficient_data_fails_fast {α β : Type} [LinearOrderedField α]
    (optimizer : List (String × HSPPoint α × α) → β)
    (tests : List (SolventTestInput α))
    (hlt : (convert_tests_to_hsp_format tests).length < 2) :
    calculate_hsp_from_tests_core optimizer tests =
        Except.error "At least 2 solvent tests are required for HSP calculation" ∧
    calculate_hsp_from_tests optimizer tests = none := by
  have hcore : calculate_hsp_from_tests_core optimizer tests =
      Except.error "At least 2 solvent tests are required for HSP calculation" := by
    simp [calculate_hsp_from_tests_core, hlt]
  exact ⟨hcore, by simp [calculate_hsp_from_tests, hcore, Except.toOption]⟩

/-- C8 witness: an empty test list yields zero valid rows; the entry point
errors out and returns no result, for an arbitrary concrete optimizer. -/
theorem C8_insufficient_data_fails_fast_witness :
    calculate_hsp_from_tests_core (α := ℚ) (fun _ => (0 : ℚ)) [] =
        Except.error "At least 2 solvent tests are required for HSP calculation" ∧
    calculate_hsp_from_tests (α := ℚ) (fun _ => (0 : ℚ)) [] = none :=
  C8_insufficient_data_fails_fast (fun _ => (0 : ℚ)) []
    (by simp [convert_tests_to_hsp_format])

end MixingCompass

namespace MixingCompass

theorem radiusOnlyStage_eq {α : Type} [LinearOrderedField α]
    {solvents : List (SolventRecord α)} {r : RadiusOnlyResult α}
    (hr : radiusOnlyStage solvents = some r) :
    r = ⟨raMin solvents,
         if 0 < solvents.length then
           (((solvents.map (classifyOne (raMin solvents))).filter (·.is_correct)).length : α)
             / solvents.length
         else 0,
         raMin solvents, raMax solvents, feasibleFlag solvents,
         solvents.map (classifyOne (raMin solvents))⟩ := by
  by_cases hguard : solvents ≠ [] ∧ raMin solvents = 0
  · simp [radiusOnlyStage, hguard] at hr
  · simp only [radiusOnlyStage, if_neg hguard, Option.some.injEq] at hr
    exact hr.symm

theorem radiusOnlyStage_raMin_ne_zero {α : Type} [LinearOrderedField α]
    {solvents : List (SolventRecord α)} {r : RadiusOnlyResult α}
    (hr : radiusOnlyStage solvents = some r) (hne : solvents ≠ []) :
    raMin solvents ≠ 0 := by
  intro h0
  simp [radiusOnlyStage, hne, h0] at hr

theorem good_distance_le_raMin {α : Type} [LinearOrderedField α]
    {solvents : List (SolventRecord α)} {s : SolventRecord α}
    (hs : s ∈ goodSolvents solvents) :
    s.distance ≤ raMin solvents := by
  cases hg : goodSolvents solvents with
  | nil => rw [hg] at hs; cases hs
  | cons a t =>
      rw [hg] at hs
      have hmem : s.distance ∈ (a :: t).map (·.distance) :=
        List.mem_map_of_mem _ hs
      calc s.distance ≤ pyMax ((a :: t).map (·.distance)) := le_pyMax hmem
        _ = raMin solvents := by simp [raMin, hg]

/-- C5: whenever the feasibility diagnostic holds (Ra_min ≤ Ra_max), the
returned radius equals Ra_min, and every sample with score exactly 1.0 has
RED ≤ 1 with respect to the returned sphere: no good observation is excluded.
Distances are the nonnegative Hansen distances computed in step 2. -/
theorem C5_feasible_radius_covers_good {α : Type} [LinearOrderedField α]
    (solvents : List (SolventRecord α)) (r : RadiusOnlyResult α)
    (hnn : ∀ s ∈ solvents, 0 ≤ s.distance)
    (_hfeas : feasibleFlag solvents = true)
    (hr : radiusOnlyStage solvents = some r) :
    r.radius = raMin solvents ∧
    ∀ d ∈ r.details, d.solubility = 1 → d.red ≤ 1 := by
  have heq := radiusOnlyStage_eq hr
  refine ⟨by rw [heq], ?_⟩
  intro d hd hsol
  have hdet : d ∈ solvents.map (classifyOne (raMin solvents)) := by
    rw [heq] at hd; exact hd
  rcases List.mem_map.mp hdet with ⟨s, hs, rfl⟩
  have hsol' : s.solubility = 1 := by simpa [classifyOne] using hsol
  have hgood : s ∈ goodSolvents solvents :=
    List.mem_filter.mpr ⟨hs, by simp [hsol']⟩
  have hle : s.distance ≤ raMin solvents := good_distance_le_raMin hgood
  have hne : solvents ≠ [] := by
    intro h; rw [h] at hs; cases hs
  have h0 : raMin solvents ≠ 0 := radiusOnlyStage_raMin_ne_zero hr hne
  have hpos : 0 < raMin solvents :=
    lt_of_le_of_ne (le_trans (hnn s hs) hle) (Ne.symm h0)
  show s.distance / raMin solvents ≤ 1
  exact (div_le_one hpos).mpr hle

/-- C9: with zero good observations the chosen radius defaults to the
constant 0.1; with zero poor observations `Ra_max` is `+∞` (`none`) and the
feasibility check trivially succeeds. -/
theorem C9_edge_defaults {α : Type} [LinearOrderedField α]
    (solvents : List (SolventRecord α)) :
    ((∀ s ∈ solvents, s.solubility ≠ 1) →
        ∃ r, radiusOnlyStage solvents = some r ∧ r.radius = 1 / 10) ∧
    ((∀ s ∈ solvents, ¬s.solubility < 1) →
        raMax solvents = none ∧ feasibleFlag solvents = true) := by
  constructor
  · intro hng
    have hge : goodSolvents solvents = [] :=
      List.filter_eq_nil_iff.mpr (fun s hs => by simp [hng s hs])
    have hrm : raMin solvents = 1 / 10 := by simp [raMin, hge]
    have hguard : ¬(solvents ≠ [] ∧ raMin solvents = 0) := by
      rintro ⟨-, h0⟩
      rw [hrm] at h0
      norm_num at h0
    refine ⟨⟨raMin solvents,
        if 0 < solvents.length then
          (((solvents.map (classifyOne (raMin solvents))).filter (·.is_correct)).length : α)
            / solvents.length
        else 0,
        raMin solvents, raMax solvents, feasibleFlag solvents,
        solvents.map (classifyOne (raMin solvents))⟩, ?_, hrm⟩
    simp only [radiusOnlyStage, if_neg hguard]
  · intro hnp
    have hpe : poorSolvents solvents = [] :=
      List.filter_eq_nil_iff.mpr (fun s hs => by simp [hnp s hs])
    have hmax : raMax solvents = none := by simp [raMax, hpe]
    exact ⟨hmax, by simp [feasibleFlag, hmax]⟩

/-- C10: for every dataset with at least one good observation, the radius
returned by the radius-only stage equals `Ra_min` — the maximum good
distance — unconditionally, with no feasibility side condition: the
fallback grid search over candidate radii plays no part in the result, and
feasibility is recorded purely as a diagnostic. -/
theorem C10_radius_unconditionally_raMin {α : Type} [LinearOrderedField α]
    (solvents : List (SolventRecord α)) (r : RadiusOnlyResult α)
    (hgood : goodSolvents solvents ≠ [])
    (hr : radiusOnlyStage solvents = some r) :
    r.radius = pyMax ((goodSolvents solvents).map (·.distance)) ∧
    r.feasible = feasibleFlag solvents := by
  have heq := radiusOnlyStage_eq hr
  constructor
  · rw [heq]
    show raMin solvents = _
    cases hg : goodSolvents solvents with
    | nil => exact absurd hg hgood
    | cons a t => simp [raMin, hg]
  · rw [heq]

end MixingCompass

namespace MixingCompass

/-- C2: for an all-good dataset the code does set `Ra_max = +∞` (`none`) and
return `radius = Ra_min`, but the reported accuracy is not 1.0: the furthest
good solvent sits exactly on the boundary, `RED = 1.0` fails the strict
`RED < 1.0` test, and the sample is counted incorrect. Concretely, for good
solvents at Hansen distances 5 and 10 from the fitted center (realized by
points (0,5,0) and (0,10,0) with center (0,0,0)), the accuracy comes out
1/2. -/
theorem C2_all_good_boundary_sample_breaks_accuracy :
    calculate_hansen_distance ⟨0, 5, 0⟩ ⟨0, 0, 0⟩ = 5 ∧
    calculate_hansen_distance ⟨0, 10, 0⟩ ⟨0, 0, 0⟩ = 10 ∧
    radiusOnlyStage (α := ℚ)
        [⟨"A", ⟨0, 5, 0⟩, 1, 5⟩, ⟨"B", ⟨0, 10, 0⟩, 1, 10⟩]
      = some ⟨10, 1 / 2, 10, none, true,
          [⟨"A", 1, 5, 1 / 2, true, true⟩, ⟨"B", 1, 10, 1, false, false⟩]⟩ ∧
    (1 : ℚ) / 2 ≠ 1 := by
  refine ⟨?_, ?_, ?_, by norm_num⟩
  · simp only [calculate_hansen_distance, hansenDistSq]
    rw [show 4 * ((0 : ℝ) - 0) ^ 2 + ((5 : ℝ) - 0) ^ 2 + ((0 : ℝ) - 0) ^ 2 = 5 ^ 2 by norm_num,
      Real.sqrt_sq (by norm_num : (0 : ℝ) ≤ 5)]
  · simp only [calculate_hansen_distance, hansenDistSq]
    rw [show 4 * ((0 : ℝ) - 0) ^ 2 + ((10 : ℝ) - 0) ^ 2 + ((0 : ℝ) - 0) ^ 2 = 10 ^ 2 by norm_num,
      Real.sqrt_sq (by norm_num : (0 : ℝ) ≤ 10)]
  · norm_num [radiusOnlyStage, raMin, raMax, goodSolvents, poorSolvents, pyMax, pyMin,
      feasibleFlag, classifyOne, List.filter]

/-- C3 counterexample: a sample with score exactly 0.5 lying strictly inside
the sphere (RED = 1/2 < 1) is marked NOT correct by the code, while the
claim's rule (score ≥ 0.5 and predictedInside ⇒ correct) says it is correct:
the code splits correctness at `solubility == 1.0`, not at 0.5. -/
theorem C3_half_score_inside_marked_incorrect :
    radiusOnlyStage (α := ℚ)
        [⟨"G", ⟨0, 10, 0⟩, 1, 10⟩, ⟨"P", ⟨0, 5, 0⟩, 1 / 2, 5⟩]
      = some ⟨10, 0, 10, some 5, false,
          [⟨"G", 1, 10, 1, false, false⟩, ⟨"P", 1 / 2, 5, 1 / 2, true, false⟩]⟩ ∧
    ((1 : ℚ) / 2 ≥ 1 / 2 ∧ (1 : ℚ) / 2 < 1) := by
  refine ⟨?_, by norm_num, by norm_num⟩
  norm_num [radiusOnlyStage, raMin, raMax, goodSolvents, poorSolvents, pyMax, pyMin,
    feasibleFlag, classifyOne, List.filter]

/-- C3 amended: the per-sample diagnostic marks a sample predicted "good" iff
RED < 1.0, and marks it correct iff (score == 1.0 and predicted inside) or
(score ≠ 1.0 and not predicted inside); in particular an observation with
score exactly 0.5 is counted correct exactly when it lies OUTSIDE the
sphere. -/
theorem C3_detail_rule {α : Type} [LinearOrderedField α]
    (solvents : List (SolventRecord α)) (r : RadiusOnlyResult α)
    (d : ClassificationDetail α)
    (hr : radiusOnlyStage solvents = some r) (hd : d ∈ r.details) :
    (d.is_inside = true ↔ d.red < 1) ∧
    (d.is_correct = true ↔
      ((d.solubility = 1 ∧ d.is_inside = true) ∨
       (d.solubility ≠ 1 ∧ d.is_inside = false))) := by
  have heq := radiusOnlyStage_eq hr
  have hdet : d ∈ solvents.map (classifyOne (raMin solvents)) := by
    rw [heq] at hd; exact hd
  rcases List.mem_map.mp hdet with ⟨s, hs, rfl⟩
  constructor
  · simp [classifyOne]
  · by_cases h : s.solubility = 1 <;> simp [classifyOne, h]

/-- C3 witness for the amended rule: a boundary good sample (RED = 1) is
predicted outside and counted incorrect under the code's `solubility == 1`
split. -/
theorem C3_detail_rule_witness :
    ((⟨"W", 1, 5, 1, false, false⟩ : ClassificationDetail ℚ).is_inside = true ↔
        (⟨"W", 1, 5, 1, false, false⟩ : ClassificationDetail ℚ).red < 1) ∧
    ((⟨"W", 1, 5, 1, false, false⟩ : ClassificationDetail ℚ).is_correct = true ↔
      (((⟨"W", 1, 5, 1, false, false⟩ : ClassificationDetail ℚ).solubility = 1 ∧
          (⟨"W", 1, 5, 1, false, false⟩ : ClassificationDetail ℚ).is_inside = true) ∨
       ((⟨"W", 1, 5, 1, false, false⟩ : ClassificationDetail ℚ).solubility ≠ 1 ∧
          (⟨"W", 1, 5, 1, false, false⟩ : ClassificationDetail ℚ).is_inside = false))) :=
  C3_detail_rule [⟨"W", ⟨0, 5, 0⟩, 1, 5⟩]
    ⟨5, 0, 5, none, true, [⟨"W", 1, 5, 1, false, false⟩]⟩
    ⟨"W", 1, 5, 1, false, false⟩
    (by norm_num [radiusOnlyStage, raMin, raMax, goodSolvents, poorSolvents, pyMax, pyMin,
      feasibleFlag, classifyOne, List.filter])
    (by simp)

/-- C5 witness: a feasible two-solvent dataset (good at distance 5, poor at
distance 10): the returned radius is Ra_min = 5 and the good sample's
RED = 1 ≤ 1. -/
theorem C5_feasible_radius_covers_good_witness :
    (⟨5, 1 / 2, 5, some 10, true,
        [⟨"G", 1, 5, 1, false, false⟩, ⟨"B", 0, 10, 2, false, true⟩]⟩ :
      RadiusOnlyResult ℚ).radius
        = raMin [⟨"G", ⟨0, 5, 0⟩, 1, 5⟩, ⟨"B", ⟨0, 10, 0⟩, 0, 10⟩] ∧
    ∀ d ∈ (⟨5, 1 / 2, 5, some 10, true,
        [⟨"G", 1, 5, 1, false, false⟩, ⟨"B", 0, 10, 2, false, true⟩]⟩ :
      RadiusOnlyResult ℚ).details, d.solubility = 1 → d.red ≤ 1 :=
  C5_feasible_radius_covers_good
    [⟨"G", ⟨0, 5, 0⟩, 1, 5⟩, ⟨"B", ⟨0, 10, 0⟩, 0, 10⟩]
    ⟨5, 1 / 2, 5, some 10, true,
      [⟨"G", 1, 5, 1, false, false⟩, ⟨"B", 0, 10, 2, false, true⟩]⟩
    (by norm_num)
    (by norm_num [feasibleFlag, raMin, raMax, goodSolvents, poorSolvents, pyMax, pyMin,
      List.filter])
    (by norm_num [radiusOnlyStage, raMin, raMax, goodSolvents, poorSolvents, pyMax, pyMin,
      feasibleFlag, classifyOne, List.filter])

/-- C10 witness: an INFEASIBLE dataset (good at distance 10, poor at
distance 5, so Ra_min = 10 > Ra_max = 5): the returned radius is still the
maximum good distance 10, and the infeasibility is only recorded in the
diagnostic flag. -/
theorem C10_radius_unconditionally_raMin_witness :
    (⟨10, 0, 10, some 5, false,
        [⟨"G", 1, 10, 1, false, false⟩, ⟨"B", 0, 5, 1 / 2, true, false⟩]⟩ :
      RadiusOnlyResult ℚ).radius
        = pyMax ((goodSolvents
            ([⟨"G", ⟨0, 10, 0⟩, 1, 10⟩, ⟨"B", ⟨0, 5, 0⟩, 0, 5⟩] :
              List (SolventRecord ℚ))).map (·.distance)) ∧
    (⟨10, 0, 10, some 5, false,
        [⟨"G", 1, 10, 1, false, false⟩, ⟨"B", 0, 5, 1 / 2, true, false⟩]⟩ :
      RadiusOnlyResult ℚ).feasible
        = feasibleFlag ([⟨"G", ⟨0, 10, 0⟩, 1, 10⟩, ⟨"B", ⟨0, 5, 0⟩, 0, 5⟩] :
            List (SolventRecord ℚ)) :=
  C10_radius_unconditionally_raMin
    [⟨"G", ⟨0, 10, 0⟩, 1, 10⟩, ⟨"B", ⟨0, 5, 0⟩, 0, 5⟩]
    ⟨10, 0, 10, some 5, false,
      [⟨"G", 1, 10, 1, false, false⟩, ⟨"B", 0, 5, 1 / 2, true, false⟩]⟩
    (by norm_num [goodSolvents, List.filter])
    (by norm_num [radiusOnlyStage, raMin, raMax, goodSolvents, poorSolvents, pyMax, pyMin,
      feasibleFlag, classifyOne, List.filter])

/-- C9 witness: a dataset with a single poor observation has no good
observation, so the radius defaults to 0.1; the no-poor implication holds
vacuously. -/
theorem C9_edge_defaults_witness :
    ((∀ s ∈ [(⟨"P", ⟨0, 5, 0⟩, 0, 5⟩ : SolventRecord ℚ)], s.solubility ≠ 1) →
        ∃ r, radiusOnlyStage [(⟨"P", ⟨0, 5, 0⟩, 0, 5⟩ : SolventRecord ℚ)] = some r ∧
          r.radius = 1 / 10) ∧
    ((∀ s ∈ [(⟨"P", ⟨0, 5, 0⟩, 0, 5⟩ : SolventRecord ℚ)], ¬s.solubility < 1) →
        raMax [(⟨"P", ⟨0, 5, 0⟩, 0, 5⟩ : SolventRecord ℚ)] = none ∧
        feasibleFlag [(⟨"P", ⟨0, 5, 0⟩, 0, 5⟩ : SolventRecord ℚ)] = true) :=
  C9_edge_defaults [(⟨"P", ⟨0, 5, 0⟩, 0, 5⟩ : SolventRecord ℚ)]

end MixingCompass

namespace MixingCompass

theorem boundaryPerSample_nonneg (red y : ℝ) : 0 ≤ boundaryPerSample red y := by
  unfold boundaryPerSample
  split_ifs
  · exact le_max_left 0 _
  · exact le_max_left 0 _
  · exact abs_nonneg _

theorem boundaryPerSample_eq_zero_iff (red y : ℝ) :
    boundaryPerSample red y = 0 ↔
      ((y = 1 → red ≤ 1) ∧ (y = 0 → 1 ≤ red) ∧ (y ≠ 1 → y ≠ 0 → red = 1)) := by
  unfold boundaryPerSample
  by_cases h1 : y = 1
  · simp [h1, max_eq_left_iff, sub_nonpos]
  · by_cases h0 : y = 0
    · simp [h1, h0, max_eq_left_iff, sub_nonpos]
    · simp [h1, h0, abs_eq_zero, sub_eq_zero]

theorem zipWith_eq_map_zip {a b c : Type} (f : a → b → c) :
    ∀ (X : List a) (y : List b),
      List.zipWith f X y = (X.zip y).map fun q => f q.1 q.2 := by
  intro X
  induction X with
  | nil => intro y; simp
  | cons x xs ih =>
      intro y
      cases y with
      | nil => simp
      | cons yi ys => simp [ih ys]

/-- C6: with size_factor off, the boundary_distance loss is 0 exactly when
every sample with y == 1 has RED ≤ 1, every sample with y == 0 has RED ≥ 1,
and every sample with any other y has RED exactly 1. -/
theorem C6_boundary_loss_zero_iff (hsp : SphereParams) (X : List (HSPPoint ℝ))
    (y : List ℝ) (hlen : X.length = y.length) (hne : y ≠ []) :
    BoundaryDistanceLoss none hsp X y = 0 ↔
      ∀ q ∈ X.zip y,
        (q.2 = 1 → redOf hsp q.1 ≤ 1) ∧
        (q.2 = 0 → 1 ≤ redOf hsp q.1) ∧
        (q.2 ≠ 1 → q.2 ≠ 0 → redOf hsp q.1 = 1) := by
  have hy : y.length ≠ 0 := fun h => hne (List.length_eq_zero.mp h)
  have hnn : ∀ z ∈ List.zipWith (fun x yi => boundaryPerSample (redOf hsp x) yi) X y,
      (0 : ℝ) ≤ z := by
    intro z hz
    rw [zipWith_eq_map_zip] at hz
    rcases List.mem_map.mp hz with ⟨q, _, rfl⟩
    exact boundaryPerSample_nonneg _ _
  have hlz : ((List.zipWith (fun x yi => boundaryPerSample (redOf hsp x) yi) X y).length : ℝ)
      ≠ 0 := by
    rw [List.length_zipWith, hlen, min_self]
    exact_mod_cast hy
  simp only [BoundaryDistanceLoss, sizePenalty]
  rw [div_eq_zero_iff, or_iff_left hlz, sum_eq_zero_iff_of_nonneg hnn,
    zipWith_eq_map_zip]
  constructor
  · intro h q hq
    exact (boundaryPerSample_eq_zero_iff _ _).mp (h _ (List.mem_map_of_mem _ hq))
  · intro h z hz
    rcases List.mem_map.mp hz with ⟨q, hq, rfl⟩
    exact (boundaryPerSample_eq_zero_iff _ _).mpr (h q hq)

/-- C6 witness: a one-sample dataset (a good solvent at the center of a unit
sphere): the boundary_distance loss is 0, and indeed the sample's RED ≤ 1. -/
theorem C6_boundary_loss_zero_iff_witness :
    BoundaryDistanceLoss none ⟨0, 0, 0, 1⟩ [⟨0, 0, 0⟩] [1] = 0 ↔
      ∀ q ∈ ([(⟨0, 0, 0⟩ : HSPPoint ℝ)]).zip ([1] : List ℝ),
        (q.2 = 1 → redOf ⟨0, 0, 0, 1⟩ q.1 ≤ 1) ∧
        (q.2 = 0 → 1 ≤ redOf ⟨0, 0, 0, 1⟩ q.1) ∧
        (q.2 ≠ 1 → q.2 ≠ 0 → redOf ⟨0, 0, 0, 1⟩ q.1 = 1) :=
  C6_boundary_loss_zero_iff ⟨0, 0, 0, 1⟩ [⟨0, 0, 0⟩] [1] rfl (by simp)

/-- C7: for every label y in [0,1], a sample whose RED is exactly 1 gets the
clipped p_soluble 0.5 and a per-sample cross_entropy loss of log 2,
independent of y. -/
theorem C7_red_one_half_prob_log_two (y : ℝ) (_h0 : 0 ≤ y) (_h1 : y ≤ 1) :
    npClip ceEpsilon (1 - ceEpsilon) (pSoluble 1) = 1 / 2 ∧
    cePerSample y 1 = Real.log 2 := by
  have hp : pSoluble 1 = 1 / 2 := by norm_num [pSoluble]
  have hclip : npClip ceEpsilon (1 - ceEpsilon) (pSoluble 1) = 1 / 2 := by
    rw [hp]
    unfold npClip ceEpsilon
    rw [min_eq_left (by norm_num), max_eq_right (by norm_num)]
  refine ⟨hclip, ?_⟩
  have hlog : Real.log (1 / 2 : ℝ) = -Real.log 2 := by
    rw [one_div, Real.log_inv]
  simp only [cePerSample, hclip]
  rw [show (1 : ℝ) - 1 / 2 = 1 / 2 by norm_num, hlog]
  ring

/-- C7 witness: at the concrete label y = 1 the clipped probability is 0.5
and the per-sample loss is log 2. -/
theorem C7_red_one_half_prob_log_two_witness :
    npClip ceEpsilon (1 - ceEpsilon) (pSoluble 1) = 1 / 2 ∧
    cePerSample 1 1 = Real.log 2 :=
  C7_red_one_half_prob_log_two 1 zero_le_one le_rfl

end MixingCompass
